import Mathlib

/-!
Verification development for the tower-auth service (src/auth/main.py,
src/auth/settings.py): a shallow embedding of its data model, token codec
and HTTP handlers, with theorems about the handlers' behaviour.

Conventions of the embedding:
- the wall clock is an explicit `now : Nat` parameter (seconds);
- the relational store is a `DB` value (users table, characters table) and
  every executed SQL statement is recorded in a `List StorageOp` trace;
- a handler returns `HandlerResult α × DB × List StorageOp`: its HTTP
  outcome, the store after the request, and the statements it executed;
- an unhandled Python exception (TypeError, AttributeError) is the
  `HandlerResult.pythonError` outcome, which FastAPI maps to a 500.
-/

namespace TowerAuth

/-- `User.Platform` (src/auth/main.py:19-21). -/
inductive Platform
  | TEST
  | STEAM
deriving DecidableEq, Repr

/-- `User.Status` (src/auth/main.py:23-26). -/
inductive UserStatus
  | ACTIVE
  | INACTIVE
  | BLOCKED
deriving DecidableEq, Repr

/-- `Character.Race` (src/auth/main.py:35-36). -/
inductive Race
  | HUMAN
deriving DecidableEq, Repr

/-- `User` (src/auth/main.py:18-31): one row of the `users` table. -/
structure User where
  id : Nat
  username : String
  platform : Platform
  status : UserStatus
deriving DecidableEq, Repr

/-- One row of the `characters` table (columns used by the INSERT on
src/auth/main.py:160-164: `user_id`, `name`, `race`). -/
structure CharacterRow where
  user_id : Nat
  name : String
  race : Race
deriving DecidableEq, Repr

/-- The relational store the handlers talk to through `db_pool`. -/
structure DB where
  users : List User
  characters : List CharacterRow
deriving DecidableEq, Repr

/-- `Settings` (src/auth/settings.py): the fields the handlers read.
The store and cache connection parameters are irrelevant to the embedded
logic and are omitted. -/
structure Settings where
  debug : Bool
  token_key : String
  token_expire_hours : Nat
deriving DecidableEq, Repr

/-- One character of `USERNAME_PATTERN = "^[a-zA-Z0-9_]{6,30}$"`
(src/auth/main.py:15). -/
def username_char_ok (c : Char) : Bool :=
  c.isAlphanum || c = '_'

/-- Whether a string matches `USERNAME_PATTERN` (src/auth/main.py:15),
the pattern pydantic enforces on `username` and `character_name` fields
before a handler body runs. -/
def validate_username (s : String) : Bool :=
  6 ≤ s.length && s.length ≤ 30 && s.data.all username_char_ok

/-- Token claims (spec section 3: {username, platform, issued-at,
expires-at}), the payload carried by a token. -/
structure Claims where
  username : String
  platform : Platform
  issued_at : Nat
  expires_at : Nat
deriving DecidableEq, Repr

/-- Modelled from the spec: the cryptographic signature of section 4.1,
an HMAC computed over the payload using the secret. It is modelled as a
perfect MAC: the value determines the secret and the payload signed. -/
structure Hmac where
  secretUsed : String
  signedClaims : Claims
deriving DecidableEq, Repr

/-- Modelled from the spec: computing the signature over a payload with a
secret (spec section 4.1). -/
def sign (secret : String) (c : Claims) : Hmac :=
  ⟨secret, c⟩

/-- A signed token: payload plus signature (spec section 4.1; tokens are
opaque strings to callers, modelled structurally). -/
structure Token where
  claims : Claims
  sig : Hmac
deriving DecidableEq, Repr

/-- Python `timedelta(hours=h)` as a number of seconds. -/
def timedelta_hours (h : Nat) : Nat :=
  h * 3600

/-- Modelled from the spec: `encode_token` of `auth.utility` (imported on
src/auth/main.py:13, module not present in the repo snapshot), the
`issue` operation of spec section 4.1: pack {username, platform,
issued-at, expires-at} with a signature over the payload. `ttl` is in
seconds. -/
def encode_token (username : String) (platform : Platform) (ttl : Nat)
    (secret : String) (now : Nat) : Token :=
  let c : Claims := ⟨username, platform, now, now + ttl⟩
  ⟨c, sign secret c⟩

/-- Modelled from the spec: `decode_token` of `auth.utility`, the
`validate` operation of spec section 4.1: verify the signature before
trusting any claim, reject when current time ≥ expires-at (expiry is
exclusive of now, spec section 8). Handlers only test the result for
falsiness, so the rejection kinds collapse to `none`. -/
def decode_token (t : Token) (secret : String) (now : Nat) : Option Claims :=
  if t.sig = sign secret t.claims then
    if now < t.claims.expires_at then some t.claims else none
  else none

/-- An executed SQL statement, for the storage-operation trace. -/
inductive StorageOp
  | selectCharacterByName (name : String)
  | insertCharacter (user_id : Nat) (name : String) (race : Race)
  | selectUserByUsername (username : String)
  | selectCharactersJoinUsers (username : String)
deriving DecidableEq, Repr

/-- Outcome of a handler: a response value, an `HTTPException`, or an
unhandled Python exception (mapped to a 500 by the framework). -/
inductive HandlerResult (α : Type)
  | ok (value : α)
  | httpError (statusCode : Nat) (detail : String)
  | pythonError (msg : String)
deriving DecidableEq, Repr

/-- Whether a handler outcome is a success response. -/
def isSuccess {α : Type} : HandlerResult α → Bool
  | .ok _ => true
  | _ => false

/-- Whether a storage operation is an INSERT into `characters`. -/
def isInsert : StorageOp → Bool
  | .insertCharacter _ _ _ => true
  | _ => false

/-- Python semantics of `x is not None` where `x` is the value returned
by `cursor.fetchall()`: aiomysql `fetchall` returns a (possibly empty)
sequence, never `None`, so the test is true for every result. Used on
src/auth/main.py:154 and 173. -/
def fetchall_is_not_none {α : Type} (r : List α) : Bool :=
  true

/-- `RequestBase` (src/auth/main.py:56-59). The `jwt` field is the token. -/
structure RequestBase where
  platform : Platform
  username : String
  jwt : Token
deriving DecidableEq, Repr

/-- `CreateCharacterRequest` (src/auth/main.py:62-64). -/
structure CreateCharacterRequest where
  platform : Platform
  username : String
  jwt : Token
  character_name : String
  race : Race
deriving DecidableEq, Repr

/-- `get_user` (src/auth/main.py:241-258): SELECT one row of `users` by
username; `None` when absent. -/
def get_user (db : DB) (username : String) : Option User :=
  db.users.find? (fun u => u.username = username)

/-- `get_active_user` (src/auth/main.py:225-238): look the user up,
400 when absent, 401 when not ACTIVE. NOTE: its definition takes exactly
one positional argument, `username`. -/
def get_active_user (db : DB) (username : String) : HandlerResult User :=
  match get_user db username with
  | none => .httpError 400 "Incorrect username or platform"
  | some user =>
    if user.status ≠ UserStatus.ACTIVE then .httpError 401 "Inactive user"
    else .ok user

/-- `issue_token_test` (src/auth/main.py:98-109): refuse with 400
"Testing is disabled" unless `settings.debug`; otherwise return a token
for the requested username with platform TEST and `timedelta(hours=1)`. -/
def issue_token_test (s : Settings) (username : String) (now : Nat) :
    HandlerResult Token :=
  if !s.debug then .httpError 400 "Testing is disabled"
  else .ok (encode_token username Platform.TEST (timedelta_hours 1) s.token_key now)

/-- `issue_token_steam` (src/auth/main.py:112-124). Line 116 calls
`get_active_user(User.Platform.STEAM, username)` with two positional
arguments, while the definition of `get_active_user` on line 225 accepts
exactly one (`username`); in Python this raises `TypeError` at the call
site, before any lookup or token issuance, so every request to this
handler ends in the unhandled exception. -/
def issue_token_steam (s : Settings) (db : DB) (username : String) (now : Nat) :
    HandlerResult Token :=
  .pythonError "TypeError: get_active_user() takes 1 positional argument but 2 were given"

/-- `create_character_test` (src/auth/main.py:127-177).

Faithful to two source anomalies:
- Line 140 reads `if user := get_user(request.username) is None:`. By
  Python precedence this binds `user` to the comparison
  `get_user(request.username) is None`; `get_user` is a coroutine
  function and is not awaited here, so the comparison tests a coroutine
  object against `None`, which is always false. Hence `user` is the
  boolean `False`, the "User not registered" branch is never taken, and
  no `SELECT ... FROM users` is executed.
- Line 154 tests `await cursor.fetchall() is not None`. `fetchall`
  returns a list, never `None`, so the test always succeeds and the
  handler always raises 400 "Name already exist" once it reaches the
  pre-check. The remaining lines 160-177 are unreachable; were they
  reached, the INSERT parameter tuple on line 163 evaluates `user.id`
  where `user` is the boolean `False`, raising `AttributeError` before
  the INSERT executes. -/
def create_character_test (s : Settings) (db : DB)
    (req : CreateCharacterRequest) (now : Nat) :
    HandlerResult Unit × DB × List StorageOp :=
  match decode_token req.jwt s.token_key now with
  | none => (.httpError 400 "Invalid token", db, [])
  | some payload =>
    if payload.username ≠ req.username then
      (.httpError 400 "Invalid username", db, [])
    else
      -- line 140: `user := (get_user(request.username) is None)`,
      -- the un-awaited coroutine object is never None
      let user_is_none : Bool := false
      if user_is_none then
        (.httpError 400 "User not registered", db, [])
      else
        -- lines 146-152: SELECT name FROM characters WHERE name = %s
        let precheck_rows :=
          (db.characters.filter (fun c => c.name = req.character_name)).map
            (fun c => c.name)
        let ops := [StorageOp.selectCharacterByName req.character_name]
        if fetchall_is_not_none precheck_rows then
          (.httpError 400 "Name already exist", db, ops)
        else
          -- lines 160-164, unreachable: `user.id` on the boolean False
          (.pythonError "AttributeError: bool object has no attribute id", db, ops)

/-- `register_steam` (src/auth/main.py:180-184), the
`/character/create/steam` endpoint: the body is `pass`. It takes only a
pattern-validated `username` query parameter (no token field exists in
its signature), touches no storage, and returns `None`, which the
framework serves as a 200 success. -/
def register_steam (db : DB) (username : String) :
    HandlerResult Unit × DB × List StorageOp :=
  (.ok (), db, [])

/-- `request_characters` (src/auth/main.py:187-217), the `/characters`
endpoint: decode the token, compare the embedded username with the
request username, then SELECT the names of the characters joined to the
user row with that username. -/
def request_characters (s : Settings) (db : DB) (req : RequestBase)
    (now : Nat) : HandlerResult (List String) × DB × List StorageOp :=
  match decode_token req.jwt s.token_key now with
  | none => (.httpError 400 "Invalid token", db, [])
  | some payload =>
    if payload.username ≠ req.username then
      (.httpError 400 "Invalid username", db, [])
    else
      let rows :=
        (db.characters.filter (fun c =>
          db.users.any (fun u => c.user_id = u.id && u.username = req.username))).map
          (fun c => c.name)
      let ops := [StorageOp.selectCharactersJoinUsers req.username]
      if rows.isEmpty then (.ok [], db, ops)
      else (.ok rows, db, ops)

/-- `healthcheck` (src/auth/main.py:220-222). -/
def healthcheck : HandlerResult String :=
  .ok "OK"

/- Sample inputs used by concrete theorems and witnesses. -/

/-- A settings value with debug enabled. -/
def sampleSettings : Settings :=
  ⟨true, "sample-signing-key", 12⟩

/-- An empty store: no users, no characters. -/
def dbEmpty : DB :=
  ⟨[], []⟩

/-- A store holding one ACTIVE user and no characters. -/
def dbAliceActive : DB :=
  ⟨[⟨1, "alice_01", Platform.STEAM, UserStatus.ACTIVE⟩], []⟩

/-- A token issued for alice_01 at time 0 with a one-hour TTL under the
sample key. -/
def tokAlice : Token :=
  encode_token "alice_01" Platform.TEST (timedelta_hours 1) "sample-signing-key" 0

/-- A character-creation request presenting the username bobby_02
together with a token whose claims name alice_01. -/
def reqMismatch : CreateCharacterRequest :=
  ⟨Platform.TEST, "bobby_02", tokAlice, "hero_abc", Race.HUMAN⟩

/-- A listing request presenting the username bobby_02 together with a
token whose claims name alice_01. -/
def rbMismatch : RequestBase :=
  ⟨Platform.TEST, "bobby_02", tokAlice⟩

/-- A well-formed character-creation request: the presented username
matches the token claims, and the character name is fresh in every
sample store above. -/
def reqAliceOk : CreateCharacterRequest :=
  ⟨Platform.TEST, "alice_01", tokAlice, "hero_abc", Race.HUMAN⟩

/-- C1: for every request to a protected handler (character creation and
character listing) whose token decodes successfully, if the username claim
embedded in the token differs from the username field supplied in the
request, the handler answers 400 "Invalid username", leaves the store
unchanged and executes no storage operation. -/
theorem C1_identity_mismatch_rejected (s : Settings) (db : DB)
    (req : CreateCharacterRequest) (rb : RequestBase) (now : Nat)
    (p q : Claims)
    (hdec : decode_token req.jwt s.token_key now = some p)
    (hne : p.username ≠ req.username)
    (hdec2 : decode_token rb.jwt s.token_key now = some q)
    (hne2 : q.username ≠ rb.username) :
    create_character_test s db req now =
      (.httpError 400 "Invalid username", db, []) ∧
    request_characters s db rb now =
      (.httpError 400 "Invalid username", db, []) := by
  constructor
  · unfold create_character_test
    rw [hdec]
    simp [hne]
  · unfold request_characters
    rw [hdec2]
    simp [hne2]

/-- C1 witness: a concrete token for alice_01 presented with username
bobby_02 is rejected by both handlers with no storage operation. -/
theorem C1_witness :
    create_character_test sampleSettings dbAliceActive reqMismatch 10 =
      (.httpError 400 "Invalid username", dbAliceActive, []) ∧
    request_characters sampleSettings dbAliceActive rbMismatch 10 =
      (.httpError 400 "Invalid username", dbAliceActive, []) :=
  C1_identity_mismatch_rejected sampleSettings dbAliceActive reqMismatch
    rbMismatch 10 tokAlice.claims tokAlice.claims
    (by decide) (by decide) (by decide) (by decide)

/-- C2: for every test-token request with a pattern-valid username, when
`settings.debug` is off the handler refuses with 400 "Testing is
disabled" and issues no token; when it is on, it returns the token
encoded for the requested username with platform TEST and a fixed
one-hour TTL, and decoding that token before the hour elapses yields
claims carrying exactly that username, platform TEST, and the one-hour
expiry. -/
theorem C2_issue_token_test_spec (s : Settings) (u : String) (now : Nat)
    (hvalid : validate_username u = true) :
    (s.debug = false →
      issue_token_test s u now = .httpError 400 "Testing is disabled") ∧
    (s.debug = true →
      issue_token_test s u now =
        .ok (encode_token u Platform.TEST (timedelta_hours 1) s.token_key now) ∧
      ∀ t, t < now + timedelta_hours 1 →
        decode_token
            (encode_token u Platform.TEST (timedelta_hours 1) s.token_key now)
            s.token_key t =
          some ⟨u, Platform.TEST, now, now + timedelta_hours 1⟩) := by
  constructor
  · intro hdbg
    simp [issue_token_test, hdbg]
  · intro hdbg
    constructor
    · simp [issue_token_test, hdbg]
    · intro t ht
      simp [decode_token, encode_token, ht]

/-- C2 witness: instantiated for alice_01, which satisfies the username
pattern, at issue time 0. -/
theorem C2_witness :
    validate_username "alice_01" = true ∧
    ((sampleSettings.debug = false →
        issue_token_test sampleSettings "alice_01" 0 =
          .httpError 400 "Testing is disabled") ∧
     (sampleSettings.debug = true →
        issue_token_test sampleSettings "alice_01" 0 =
          .ok (encode_token "alice_01" Platform.TEST (timedelta_hours 1)
                sampleSettings.token_key 0) ∧
        ∀ t, t < 0 + timedelta_hours 1 →
          decode_token
              (encode_token "alice_01" Platform.TEST (timedelta_hours 1)
                sampleSettings.token_key 0)
              sampleSettings.token_key t =
            some ⟨"alice_01", Platform.TEST, 0, 0 + timedelta_hours 1⟩)) :=
  ⟨by decide, C2_issue_token_test_spec sampleSettings "alice_01" 0 (by decide)⟩

/-- C3 (code bug): the Steam issuance handler never performs the
lookup-then-issue flow the spec describes; even for a registered ACTIVE
user, for whom the one-argument `get_active_user` itself succeeds, the
handler ends in the unhandled TypeError raised by the two-argument call
on src/auth/main.py:116, and no token is returned. -/
theorem C3_steam_issuance_type_error :
    get_active_user dbAliceActive "alice_01" =
      .ok ⟨1, "alice_01", Platform.STEAM, UserStatus.ACTIVE⟩ ∧
    issue_token_steam sampleSettings dbAliceActive "alice_01" 0 =
      .pythonError
        "TypeError: get_active_user() takes 1 positional argument but 2 were given" :=
  ⟨by decide, rfl⟩

/-- C9: for every request, the Steam token-issuance handler raises the
unhandled TypeError (the call on src/auth/main.py:116 passes two
positional arguments to the one-parameter `get_active_user`), so it
never returns a token. -/
theorem C9_steam_issuance_always_type_error (s : Settings) (db : DB)
    (username : String) (now : Nat) :
    issue_token_steam s db username now =
      .pythonError
        "TypeError: get_active_user() takes 1 positional argument but 2 were given" ∧
    isSuccess (issue_token_steam s db username now) = false :=
  ⟨rfl, rfl⟩

/-- C4 (code bug): the existence pre-check does not behave as an
existence check. On a store holding no character at all, an authorized
request for a fresh name is still rejected with 400 "Name already
exist" instead of proceeding to the insert: the comparison on
src/auth/main.py:154 tests the fetchall list against None and is always
true. -/
theorem C4_precheck_rejects_fresh_name :
    dbAliceActive.characters.filter
      (fun c => c.name = reqAliceOk.character_name) = [] ∧
    create_character_test sampleSettings dbAliceActive reqAliceOk 10 =
      (.httpError 400 "Name already exist", dbAliceActive,
        [StorageOp.selectCharacterByName "hero_abc"]) :=
  ⟨rfl, by decide⟩

/-- C5 (code bug): character registration never succeeds and, in
particular, success is not determined by the insert completing: on every
input the handler returns a non-success outcome and its storage trace
contains no INSERT into `characters`, because the always-true pre-check
comparison rejects before the insert (and the post-insert re-read on
src/auth/main.py:173 uses the same always-true comparison and would
reject with "Creation failed"). -/
theorem C5_registration_never_completes_an_insert (s : Settings) (db : DB)
    (req : CreateCharacterRequest) (now : Nat) :
    isSuccess (create_character_test s db req now).1 = false ∧
    (create_character_test s db req now).2.2.filter isInsert = [] := by
  unfold create_character_test
  cases hdec : decode_token req.jwt s.token_key now with
  | none => simp [isSuccess]
  | some payload =>
    by_cases h : payload.username = req.username
    · simp [h, isSuccess, isInsert, fetchall_is_not_none]
    · simp [h, isSuccess]

/-- C6 (code bug): the 400 "User not registered" rejection is
unreachable. On a store with no user row at all, an authorized request
is not rejected as unregistered but falls through to the pre-check and
gets 400 "Name already exist"; and on every input the handler outcome is
one of "Invalid token", "Invalid username" or "Name already exist" —
never "User not registered" — because line 140 of src/auth/main.py binds
`user` to the comparison of an un-awaited coroutine against None, which
is always False. -/
theorem C6_user_not_registered_branch_dead :
    get_user dbEmpty "alice_01" = none ∧
    create_character_test sampleSettings dbEmpty reqAliceOk 10 =
      (.httpError 400 "Name already exist", dbEmpty,
        [StorageOp.selectCharacterByName "hero_abc"]) ∧
    ∀ (s : Settings) (db : DB) (req : CreateCharacterRequest) (now : Nat),
      (create_character_test s db req now).1 =
          HandlerResult.httpError 400 "Invalid token" ∨
      (create_character_test s db req now).1 =
          HandlerResult.httpError 400 "Invalid username" ∨
      (create_character_test s db req now).1 =
          HandlerResult.httpError 400 "Name already exist" := by
  refine ⟨rfl, by decide, ?_⟩
  intro s db req now
  unfold create_character_test
  cases hdec : decode_token req.jwt s.token_key now with
  | none => simp
  | some payload =>
    by_cases h : payload.username = req.username
    · simp [h, fetchall_is_not_none]
    · simp [h]

/-- C7: decoding a token produced by `encode_token` with the same secret,
at any time before the TTL has elapsed, yields exactly the claims that
were encoded: the input username, the input platform, and the validity
window [now, now + ttl). -/
theorem C7_token_roundtrip (u : String) (p : Platform) (ttl : Nat)
    (secret : String) (now t : Nat) (h : t < now + ttl) :
    decode_token (encode_token u p ttl secret now) secret t =
      some ⟨u, p, now, now + ttl⟩ := by
  simp [decode_token, encode_token, h]

/-- C7 witness: a token for alice_01 on STEAM issued at time 0 with a
one-hour TTL decodes at time 10 to the encoded claims. -/
theorem C7_witness :
    10 < 0 + timedelta_hours 1 ∧
    decode_token
        (encode_token "alice_01" Platform.STEAM (timedelta_hours 1)
          "sample-signing-key" 0)
        "sample-signing-key" 10 =
      some ⟨"alice_01", Platform.STEAM, 0, 0 + timedelta_hours 1⟩ :=
  ⟨by decide, C7_token_roundtrip "alice_01" Platform.STEAM (timedelta_hours 1)
      "sample-signing-key" 0 10 (by decide)⟩

/-- C8: the test character-creation handler never returns a success
response: every outcome is a non-success, every request that passes
token validation and the username match is rejected with 400 "Name
already exist" by the pre-check, and the comparison both checks rely on
(`fetchall` result is-not-None) is true for every possible list result,
so the success branch of the endpoint is unreachable. -/
theorem C8_success_branch_unreachable (s : Settings) (db : DB)
    (req : CreateCharacterRequest) (now : Nat) :
    isSuccess (create_character_test s db req now).1 = false ∧
    (∀ payload, decode_token req.jwt s.token_key now = some payload →
      payload.username = req.username →
      (create_character_test s db req now).1 =
        HandlerResult.httpError 400 "Name already exist") ∧
    (∀ r : List String, fetchall_is_not_none r = true) := by
  refine ⟨?_, ?_, fun r => rfl⟩
  · unfold create_character_test
    cases hdec : decode_token req.jwt s.token_key now with
    | none => simp [isSuccess]
    | some payload =>
      by_cases h : payload.username = req.username
      · simp [h, isSuccess, fetchall_is_not_none]
      · simp [h, isSuccess]
  · intro payload hdec h
    unfold create_character_test
    rw [hdec]
    simp [h, fetchall_is_not_none]

/-- C8 witness: a concrete authorized request (valid token for alice_01,
matching username) on a store where the character name is fresh is
rejected with "Name already exist", not answered with success. -/
theorem C8_witness :
    isSuccess
      (create_character_test sampleSettings dbAliceActive reqAliceOk 10).1 =
        false ∧
    (create_character_test sampleSettings dbAliceActive reqAliceOk 10).1 =
      HandlerResult.httpError 400 "Name already exist" :=
  ⟨(C8_success_branch_unreachable sampleSettings dbAliceActive reqAliceOk 10).1,
   (C8_success_branch_unreachable sampleSettings dbAliceActive reqAliceOk 10).2.1
     tokAlice.claims (by decide) (by decide)⟩

/-- C10: the Steam character-creation endpoint is an unauthenticated
no-op: for every store and every pattern-valid username it returns
success, leaves the store unchanged, and executes no storage operation
(its embedded definition takes no token at all, mirroring the source
signature on src/auth/main.py:180-184). -/
theorem C10_register_steam_noop (db : DB) (username : String)
    (hvalid : validate_username username = true) :
    register_steam db username = (HandlerResult.ok (), db, []) := rfl

/-- C10 witness: instantiated for alice_01, which satisfies the username
pattern, on the empty store. -/
theorem C10_witness :
    validate_username "alice_01" = true ∧
    register_steam dbEmpty "alice_01" = (HandlerResult.ok (), dbEmpty, []) :=
  ⟨by decide, C10_register_steam_noop dbEmpty "alice_01" (by decide)⟩

end TowerAuth
